import Mathlib

/-!
Verification of the session-guard layer of the HeroApp music-player front end
(src/MusicPlayerTool/JS/home.js).

The browser state that the code reads and writes is modelled explicitly:
the five localStorage keys (auth.access_token, auth.access_expires_at,
auth.refresh_token, auth.refresh_expires_at, auth.me), the sessionStorage
flag auth.redirecting, the list of navigations performed by
window.location.replace, and the list of network requests issued by fetch.
A localStorage value is an `Option` (`none` = key absent); expiries are
epoch seconds as `Nat` (the getters default a missing value to 0, exactly
as `parseInt(x || "0", 10)` does). The outcome of a fetch is supplied as
an oracle argument of type `FetchResult`.
-/

namespace HeroApp

/-- A navigation performed by window.location.replace: the URL it was given
and the value of the `from` query parameter appended to it. -/
structure NavEvent where
  base : String
  fromParam : String
  deriving DecidableEq, Repr

/-- A network request issued by fetch, with the credential or body data the
code put into it. -/
inductive NetCall where
  | refreshReq (refreshToken : String)
  | meReq (bearer : String)
  | logoutReq (bearer : String)
  deriving DecidableEq, Repr

/-- The browser-resident state home.js manipulates: the five localStorage
keys, the sessionStorage redirect flag, and the event logs. -/
structure St where
  access : Option String
  accessExp : Option Nat
  refresh : Option String
  refreshExp : Option Nat
  me : Option String
  redirecting : Bool
  navs : List NavEvent
  netCalls : List NetCall
  deriving DecidableEq, Repr

/-- getAT: `localStorage.getItem(LS.access) || ""`. -/
def getAT (s : St) : String := s.access.getD ""

/-- getATExp: `parseInt(localStorage.getItem(LS.accessExp) || "0", 10)`. -/
def getATExp (s : St) : Nat := s.accessExp.getD 0

/-- getRT: `localStorage.getItem(LS.refresh) || ""`. -/
def getRT (s : St) : String := s.refresh.getD ""

/-- getRTExp: `parseInt(localStorage.getItem(LS.refreshExp) || "0", 10)`. -/
def getRTExp (s : St) : Nat := s.refreshExp.getD 0

/-- Body of a successful refresh-endpoint response. JS truthiness of a
missing field is modelled by `""` for the token and `0` for the expiry,
which is exactly what `data.refresh_token && data.refresh_expires_at`
tests. -/
structure RefreshData where
  access_token : String
  access_expires_at : Nat
  refresh_token : String
  refresh_expires_at : Nat
  deriving DecidableEq, Repr

/-- saveTokens (home.js lines 42-49): always writes the access leg; writes
the refresh leg only when both `refresh_token` and `refresh_expires_at`
are truthy. -/
def saveTokens (d : RefreshData) (s : St) : St :=
  let s1 : St := { s with access := some d.access_token,
                          accessExp := some d.access_expires_at }
  if d.refresh_token ≠ "" ∧ d.refresh_expires_at ≠ 0 then
    { s1 with refresh := some d.refresh_token,
              refreshExp := some d.refresh_expires_at }
  else s1

/-- clearTokens (home.js lines 51-57): removes the five localStorage keys.
The sessionStorage redirect flag is not touched. -/
def clearTokens (s : St) : St :=
  { s with access := none, accessExp := none, refresh := none,
           refreshExp := none, me := none }

/-- hasValidAT (home.js lines 59-63): `!!at && exp > nowEpoch() + 15`. -/
def hasValidAT (now : Nat) (s : St) : Bool :=
  decide (getAT s ≠ "") && decide (now + 15 < getATExp s)

/-- hasValidRT (home.js lines 65-69): `!!rt && exp > nowEpoch() + 15`. -/
def hasValidRT (now : Nat) (s : St) : Bool :=
  decide (getRT s ≠ "") && decide (now + 15 < getRTExp s)

/-- redirectLogin (home.js lines 75-81): returns at once when the
sessionStorage flag auth.redirecting is already "1"; otherwise sets the
flag, builds the login URL with `from=home` appended, and navigates. -/
def redirectLogin (loginUrl : String) (s : St) : St :=
  if s.redirecting then s
  else { s with redirecting := true,
                navs := s.navs ++ [{ base := loginUrl, fromParam := "home" }] }

/-- Outcome of one fetch call: parsed success body, a response with a
non-success HTTP status, or a thrown network (or JSON-parse) error. -/
inductive FetchResult (β : Type) where
  | ok (body : β)
  | httpErr (status : Nat)
  | netErr
  deriving DecidableEq, Repr

/-- ensureAccessToken (home.js lines 86-112): fast path on a valid cached
access token; redirect and empty result when no valid refresh token;
otherwise POST the refresh endpoint with the cached refresh token and
either persist the response via saveTokens or redirect on failure. -/
def ensureAccessToken (now : Nat) (loginUrl : String)
    (resp : FetchResult RefreshData) (s : St) : String × St :=
  if hasValidAT now s then (getAT s, s)
  else if hasValidRT now s then
    let s1 : St := { s with netCalls := s.netCalls ++ [NetCall.refreshReq (getRT s)] }
    match resp with
    | FetchResult.ok d => (d.access_token, saveTokens d s1)
    | FetchResult.httpErr _ => ("", redirectLogin loginUrl s1)
    | FetchResult.netErr => ("", redirectLogin loginUrl s1)
  else ("", redirectLogin loginUrl s)

/-- What fetchMe produces for its caller: a thrown exception (fetch or
resp.json rejected, not caught inside fetchMe) or a returned value. -/
inductive MeResult where
  | thrown
  | value (me : Option String)
  deriving DecidableEq, Repr

/-- fetchMe (home.js lines 117-127): GET the profile endpoint with the
token as bearer credential; on non-ok status redirect and return null; on
success cache the payload (a cache-write failure, modelled by
`cacheOk = false`, is swallowed) and return it. -/
def fetchMe (loginUrl : String) (tok : String) (resp : FetchResult String)
    (cacheOk : Bool) (s : St) : MeResult × St :=
  let s1 : St := { s with netCalls := s.netCalls ++ [NetCall.meReq tok] }
  match resp with
  | FetchResult.netErr => (MeResult.thrown, s1)
  | FetchResult.httpErr _ => (MeResult.value none, redirectLogin loginUrl s1)
  | FetchResult.ok p =>
      let s2 : St := if cacheOk then { s1 with me := some p } else s1
      (MeResult.value (some p), s2)

/-- onLogout (home.js lines 129-138): best-effort POST to the logout
endpoint when an access token is cached (any outcome, including a thrown
network error, is swallowed), then clearTokens, then redirectLogin. -/
def onLogout (loginUrl : String) (resp : FetchResult Unit) (s : St) : St :=
  let tok := getAT s
  let s1 : St :=
    if tok ≠ "" then { s with netCalls := s.netCalls ++ [NetCall.logoutReq tok] }
    else s
  redirectLogin loginUrl (clearTokens (let _ := resp; s1))

/-- The double quote character. -/
def dq : Char := Char.ofNat 34

/-- The apostrophe character. -/
def apos : Char := Char.ofNat 39

/-- String.prototype.replaceAll with a one-character pattern: every
occurrence of `pat` in the subject is replaced by `rep` (one-character
matches can not overlap). -/
def replaceAllC (pat : Char) (rep : List Char) : List Char → List Char
  | [] => []
  | c :: cs => (if c = pat then rep else [c]) ++ replaceAllC pat rep cs

/-- escapeHtml (home.js lines 143-145): five replaceAll passes, ampersand
first, then the angle brackets, then the two quote characters. -/
def escapeHtml (s : List Char) : List Char :=
  replaceAllC apos "&#039;".data
    (replaceAllC dq "&quot;".data
      (replaceAllC '>' "&gt;".data
        (replaceAllC '<' "&lt;".data
          (replaceAllC '&' "&amp;".data s))))

/-- Per-character escaping table: what one input character contributes to
the output of escapeHtml. -/
def escChar (c : Char) : List Char :=
  if c = '&' then "&amp;".data
  else if c = '<' then "&lt;".data
  else if c = '>' then "&gt;".data
  else if c = dq then "&quot;".data
  else if c = apos then "&#039;".data
  else [c]

/-- One of the five HTML entities produced by escapeHtml starts here. -/
def entityAt (l : List Char) : Bool :=
  "&amp;".data.isPrefixOf l || "&lt;".data.isPrefixOf l ||
  "&gt;".data.isPrefixOf l || "&quot;".data.isPrefixOf l ||
  "&#039;".data.isPrefixOf l

/-- Checker for the claimed output shape of escapeHtml: no angle bracket
and no quote character occurs, and every ampersand is the first character
of one of the five entities. -/
def escOk : List Char → Bool
  | [] => true
  | c :: cs =>
    if c = '<' ∨ c = '>' ∨ c = dq ∨ c = apos then false
    else if c = '&' then entityAt (c :: cs) && escOk cs
    else escOk cs

/-- One page of the songs endpoint as the loop in fetchAllSongs sees it:
a non-success HTTP status (the loop throws), a body that is not an array,
or an array of rows. Song records are opaque and modelled by Nat. -/
inductive PageResult where
  | httpError (status : Nat)
  | nonArray
  | rows (rs : List Nat)
  deriving DecidableEq, Repr

/-- The page size constant of fetchAllSongs (home.js line 459). -/
def PAGE_SIZE : Nat := 200

/-- The while(true) loop of fetchAllSongs (home.js lines 458-476), with the
backend as an oracle from page number to PageResult and explicit fuel;
`none` means the fuel ran out before the loop stopped. Error payloads
carry the non-success HTTP status. -/
def fetchAllSongsAux (resp : Nat → PageResult) :
    Nat → Nat → List Nat → Option (Except Nat (List Nat))
  | 0, _, _ => none
  | fuel + 1, page, all =>
    match resp page with
    | PageResult.httpError st => some (Except.error st)
    | PageResult.nonArray => some (Except.ok all)
    | PageResult.rows rs =>
      if rs = [] then some (Except.ok all)
      else if rs.length < PAGE_SIZE then some (Except.ok (all ++ rs))
      else fetchAllSongsAux resp fuel (page + 1) (all ++ rs)

/-- fetchAllSongs: run the page loop from page 1 with an empty
accumulator. -/
def fetchAllSongs (resp : Nat → PageResult) (fuel : Nat) :
    Option (Except Nat (List Nat)) :=
  fetchAllSongsAux resp fuel 1 []

/-- The row array a page contributed (empty for a non-array page). -/
def pageRows (resp : Nat → PageResult) (k : Nat) : List Nat :=
  match resp k with
  | PageResult.rows rs => rs
  | _ => []

/-- A page answer at which the loop stops rather than continuing. -/
def isStop : PageResult → Prop
  | PageResult.httpError _ => True
  | PageResult.nonArray => True
  | PageResult.rows rs => rs.length < PAGE_SIZE

/-- The value the loop returns when it stops at a page answering `pr`,
having accumulated `all` from the earlier pages. -/
def stopResult (all : List Nat) : PageResult → Option (Except Nat (List Nat))
  | PageResult.httpError st => some (Except.error st)
  | PageResult.nonArray => some (Except.ok all)
  | PageResult.rows rs => some (Except.ok (all ++ rs))

/-- Iterating redirectLogin, modelling repeated overlapping calls within
one page instance. -/
def applyN (u : String) : Nat → St → St
  | 0, s => s
  | n + 1, s => applyN u n (redirectLogin u s)

/-- Potential function bounding how many further navigations a state can
still produce. -/
def navPot (s : St) : Nat :=
  s.navs.length + (if s.redirecting = true then 0 else 1)

/- Helper lemmas about the state transformers. -/

lemma redirectLogin_of_redirecting (u : String) (s : St)
    (h : s.redirecting = true) : redirectLogin u s = s := by
  simp [redirectLogin, h]

lemma redirectLogin_redirecting (u : String) (s : St) :
    (redirectLogin u s).redirecting = true := by
  unfold redirectLogin
  split
  · assumption
  · rfl

lemma redirectLogin_netCalls (u : String) (s : St) :
    (redirectLogin u s).netCalls = s.netCalls := by
  unfold redirectLogin
  split <;> rfl

lemma redirectLogin_navs (u : String) (s : St) :
    (redirectLogin u s).navs =
      (if s.redirecting = true then s.navs
       else s.navs ++ [{ base := u, fromParam := "home" }]) := by
  unfold redirectLogin
  split <;> simp_all

lemma redirectLogin_access (u : String) (s : St) :
    (redirectLogin u s).access = s.access := by
  unfold redirectLogin; split <;> rfl

lemma redirectLogin_accessExp (u : String) (s : St) :
    (redirectLogin u s).accessExp = s.accessExp := by
  unfold redirectLogin; split <;> rfl

lemma redirectLogin_refresh (u : String) (s : St) :
    (redirectLogin u s).refresh = s.refresh := by
  unfold redirectLogin; split <;> rfl

lemma redirectLogin_refreshExp (u : String) (s : St) :
    (redirectLogin u s).refreshExp = s.refreshExp := by
  unfold redirectLogin; split <;> rfl

lemma redirectLogin_me (u : String) (s : St) :
    (redirectLogin u s).me = s.me := by
  unfold redirectLogin; split <;> rfl

lemma saveTokens_netCalls (d : RefreshData) (s : St) :
    (saveTokens d s).netCalls = s.netCalls := by
  unfold saveTokens; split <;> rfl

lemma ensure_fast (now : Nat) (u : String) (resp : FetchResult RefreshData)
    (s : St) (h : hasValidAT now s = true) :
    ensureAccessToken now u resp s = (getAT s, s) := by
  simp [ensureAccessToken, h]

lemma ensure_noRT (now : Nat) (u : String) (resp : FetchResult RefreshData)
    (s : St) (h1 : hasValidAT now s = false) (h2 : hasValidRT now s = false) :
    ensureAccessToken now u resp s = ("", redirectLogin u s) := by
  simp [ensureAccessToken, h1, h2]

lemma ensure_ok (now : Nat) (u : String) (d : RefreshData) (s : St)
    (h1 : hasValidAT now s = false) (h2 : hasValidRT now s = true) :
    ensureAccessToken now u (FetchResult.ok d) s =
      (d.access_token,
       saveTokens d
         { s with netCalls := s.netCalls ++ [NetCall.refreshReq (getRT s)] }) := by
  simp [ensureAccessToken, h1, h2]

lemma ensure_httpErr (now : Nat) (u : String) (st : Nat) (s : St)
    (h1 : hasValidAT now s = false) (h2 : hasValidRT now s = true) :
    ensureAccessToken now u (FetchResult.httpErr st) s =
      ("", redirectLogin u
         { s with netCalls := s.netCalls ++ [NetCall.refreshReq (getRT s)] }) := by
  simp [ensureAccessToken, h1, h2]

lemma ensure_netErr (now : Nat) (u : String) (s : St)
    (h1 : hasValidAT now s = false) (h2 : hasValidRT now s = true) :
    ensureAccessToken now u FetchResult.netErr s =
      ("", redirectLogin u
         { s with netCalls := s.netCalls ++ [NetCall.refreshReq (getRT s)] }) := by
  simp [ensureAccessToken, h1, h2]

lemma hasValidAT_of_le (now : Nat) (s : St) (h : getATExp s ≤ now + 15) :
    hasValidAT now s = false := by
  have hx : ¬ (now + 15 < getATExp s) := by omega
  simp [hasValidAT, hx]

/-- C4: the cached access token is treated as valid exactly when it is
non-empty and its expiry lies strictly beyond now plus the 15 second
leeway; whenever the expiry is within the leeway, ensureAccessToken does
not reuse the cached token: with a valid refresh token it issues the
refresh request, and without one it returns the empty string and triggers
the login redirect. -/
theorem hasValidAT_leeway_spec (now : Nat) (u : String)
    (resp : FetchResult RefreshData) (s : St) :
    (hasValidAT now s = true ↔ (getAT s ≠ "" ∧ now + 15 < getATExp s)) ∧
    (getATExp s ≤ now + 15 →
      (hasValidRT now s = true →
        ((ensureAccessToken now u resp s).2).netCalls
          = s.netCalls ++ [NetCall.refreshReq (getRT s)]) ∧
      (hasValidRT now s = false →
        (ensureAccessToken now u resp s).1 = "" ∧
        ((ensureAccessToken now u resp s).2).redirecting = true)) := by
  constructor
  · simp [hasValidAT]
  · intro hle
    have h1 : hasValidAT now s = false := hasValidAT_of_le now s hle
    constructor
    · intro h2
      cases resp with
      | ok d =>
          rw [ensure_ok now u d s h1 h2]
          simp [saveTokens_netCalls]
      | httpErr st =>
          rw [ensure_httpErr now u st s h1 h2]
          simp [redirectLogin_netCalls]
      | netErr =>
          rw [ensure_netErr now u s h1 h2]
          simp [redirectLogin_netCalls]
    · intro h2
      rw [ensure_noRT now u resp s h1 h2]
      exact ⟨rfl, redirectLogin_redirecting u s⟩

/-- Concrete state for the C4 witness: access token expiring at now + 5,
valid refresh token. -/
def sC4w : St := ⟨some "T", some 105, some "R", some 10000, none, false, [], []⟩

/-- C4 witness: the spec scenario access_expires_at = now + 5 (now = 100)
takes the refresh path. -/
theorem hasValidAT_leeway_spec_w :
    getATExp sC4w ≤ 100 + 15 ∧ hasValidRT 100 sC4w = true ∧
    ((ensureAccessToken 100 "u" FetchResult.netErr sC4w).2).netCalls
      = sC4w.netCalls ++ [NetCall.refreshReq (getRT sC4w)] := by
  refine ⟨by decide, by decide, ?_⟩
  exact ((hasValidAT_leeway_spec 100 "u" FetchResult.netErr sC4w).2
    (by decide)).1 (by decide)

/-- Concrete state for the C3 counterexample: a populated session with the
redirect flag unset. -/
def sC3cex : St :=
  ⟨some "OLD", some 50, some "R", some 60, some "ME", false, [], []⟩

/-- C3 counterexample: starting with the redirect flag unset, onLogout
leaves the flag SET (the redirect helper sets it); the sessionStorage
flag is therefore not one of the keys logout clears, contradicting the
claim that all six keys, the redirect flag included, are cleared. -/
theorem onLogout_flag_cex :
    sC3cex.redirecting = false ∧
    (onLogout "u" FetchResult.netErr sC3cex).redirecting = true ∧
    (true : Bool) ≠ false := by decide

/-- C3 amended: for every starting state, including when the network
logout call throws, onLogout clears the FIVE localStorage keys (the two
token legs, their expiries, the cached profile) and then calls the
redirect helper, which sets (never clears) the redirect flag and performs
the navigation only when the flag was not already set. -/
theorem onLogout_spec (u : String) (resp : FetchResult Unit) (s : St) :
    (onLogout u resp s).access = none ∧
    (onLogout u resp s).accessExp = none ∧
    (onLogout u resp s).refresh = none ∧
    (onLogout u resp s).refreshExp = none ∧
    (onLogout u resp s).me = none ∧
    (onLogout u resp s).redirecting = true ∧
    (onLogout u resp s).navs =
      (if s.redirecting = true then s.navs
       else s.navs ++ [{ base := u, fromParam := "home" }]) := by
  unfold onLogout clearTokens
  refine ⟨?_, ?_, ?_, ?_, ?_, ?_, ?_⟩ <;>
    (simp [redirectLogin_access, redirectLogin_accessExp, redirectLogin_refresh,
      redirectLogin_refreshExp, redirectLogin_me, redirectLogin_redirecting,
      redirectLogin_navs]
     try (split <;> simp))

/-- Concrete state for the C7 counterexample: valid access token cached,
no refresh token at all. -/
def sC7cex : St := ⟨some "T", some 1000, none, none, none, false, [], []⟩

/-- C7 counterexample: with no refresh token cached but a valid access
token, ensureAccessToken returns the cached token and does not redirect,
contradicting the claim that every session without a refresh token is
redirected with an empty result. -/
theorem noValidRT_redirects_cex :
    sC7cex.refresh = none ∧
    (ensureAccessToken 100 "u" FetchResult.netErr sC7cex).1 = "T" ∧
    (ensureAccessToken 100 "u" FetchResult.netErr sC7cex).2.redirecting = false ∧
    ("T" : String) ≠ "" := by decide

/-- C7 amended: whenever the cached access token fails the validity check
and no valid refresh token is cached, ensureAccessToken returns the empty
string, triggers the login redirect (flag set, navigation appended only
when the flag was unset), and issues no network call. -/
theorem noValidRT_redirects (now : Nat) (u : String)
    (resp : FetchResult RefreshData) (s : St)
    (h1 : hasValidAT now s = false) (h2 : hasValidRT now s = false) :
    (ensureAccessToken now u resp s).1 = "" ∧
    ((ensureAccessToken now u resp s).2).redirecting = true ∧
    ((ensureAccessToken now u resp s).2).netCalls = s.netCalls ∧
    ((ensureAccessToken now u resp s).2).navs =
      (if s.redirecting = true then s.navs
       else s.navs ++ [{ base := u, fromParam := "home" }]) := by
  rw [ensure_noRT now u resp s h1 h2]
  exact ⟨rfl, redirectLogin_redirecting u s, redirectLogin_netCalls u s,
    redirectLogin_navs u s⟩

/-- Concrete state for the C7 witness: empty session. -/
def sC7w : St := ⟨none, none, none, none, none, false, [], []⟩

/-- C7 witness: an empty session is redirected with no network call. -/
theorem noValidRT_redirects_w :
    hasValidAT 100 sC7w = false ∧ hasValidRT 100 sC7w = false ∧
    ((ensureAccessToken 100 "login.html" FetchResult.netErr sC7w).1 = "" ∧
     ((ensureAccessToken 100 "login.html" FetchResult.netErr sC7w).2).redirecting = true ∧
     ((ensureAccessToken 100 "login.html" FetchResult.netErr sC7w).2).netCalls = sC7w.netCalls ∧
     ((ensureAccessToken 100 "login.html" FetchResult.netErr sC7w).2).navs =
       (if sC7w.redirecting = true then sC7w.navs
        else sC7w.navs ++ [{ base := "login.html", fromParam := "home" }])) := by
  refine ⟨by decide, by decide, ?_⟩
  exact noValidRT_redirects 100 "login.html" FetchResult.netErr sC7w
    (by decide) (by decide)

/-- Concrete state for the C1 counterexample: no access token, valid
refresh token R1. -/
def sC1cex : St := ⟨some "", some 0, some "R1", some 1000, none, false, [], []⟩

/-- Refresh response for the C1 counterexample: it contains a new refresh
token R2 but no refresh expiry. -/
def dC1cex : RefreshData :=
  { access_token := "A2", access_expires_at := 999,
    refresh_token := "R2", refresh_expires_at := 0 }

/-- C1 counterexample: a success response that contains a new refresh
token but no refresh expiry does NOT get its refresh token persisted (the
cached token stays R1), contradicting the clause that the new refresh
token is persisted whenever the response contains one. -/
theorem ensureAccessToken_spec_cex :
    dC1cex.refresh_token = "R2" ∧
    ((ensureAccessToken 100 "u" (FetchResult.ok dC1cex) sC1cex).2).refresh
      = some "R1" ∧
    (some "R1" : Option String) ≠ some dC1cex.refresh_token := by decide

/-- C1 amended: ensureAccessToken behaves as specified, except that a new
refresh token from a success response is persisted only when the response
contains BOTH the new refresh token and its expiry: a valid cached access
token is returned with no network call; with no valid refresh token it
triggers the login redirect and returns the empty string with no network
call; otherwise it calls the refresh endpoint with the cached refresh
token and, on success, persists the new access token (and the refresh leg
when both fields are present) and returns the new access token, while on
a non-success status or a network error it triggers the login redirect
and returns the empty string. -/
theorem ensureAccessToken_spec (now : Nat) (u : String)
    (resp : FetchResult RefreshData) (s : St) :
    (hasValidAT now s = true →
      ensureAccessToken now u resp s = (getAT s, s)) ∧
    (hasValidAT now s = false → hasValidRT now s = false →
      (ensureAccessToken now u resp s).1 = "" ∧
      ((ensureAccessToken now u resp s).2).redirecting = true ∧
      ((ensureAccessToken now u resp s).2).netCalls = s.netCalls) ∧
    (hasValidAT now s = false → hasValidRT now s = true →
      ((ensureAccessToken now u resp s).2).netCalls
        = s.netCalls ++ [NetCall.refreshReq (getRT s)] ∧
      (∀ d, resp = FetchResult.ok d →
        (ensureAccessToken now u resp s).1 = d.access_token ∧
        ((ensureAccessToken now u resp s).2).access = some d.access_token ∧
        ((ensureAccessToken now u resp s).2).accessExp
          = some d.access_expires_at ∧
        ((ensureAccessToken now u resp s).2).redirecting = s.redirecting ∧
        (d.refresh_token ≠ "" → d.refresh_expires_at ≠ 0 →
          ((ensureAccessToken now u resp s).2).refresh
            = some d.refresh_token ∧
          ((ensureAccessToken now u resp s).2).refreshExp
            = some d.refresh_expires_at)) ∧
      ((resp = FetchResult.netErr ∨ ∃ st, resp = FetchResult.httpErr st) →
        (ensureAccessToken now u resp s).1 = "" ∧
        ((ensureAccessToken now u resp s).2).redirecting = true)) := by
  refine ⟨fun h => ensure_fast now u resp s h, fun h1 h2 => ?_, fun h1 h2 => ?_⟩
  · rw [ensure_noRT now u resp s h1 h2]
    exact ⟨rfl, redirectLogin_redirecting u s, redirectLogin_netCalls u s⟩
  · refine ⟨?_, ?_, ?_⟩
    · cases resp with
      | ok d => rw [ensure_ok now u d s h1 h2]; simp [saveTokens_netCalls]
      | httpErr st =>
          rw [ensure_httpErr now u st s h1 h2]; simp [redirectLogin_netCalls]
      | netErr =>
          rw [ensure_netErr now u s h1 h2]; simp [redirectLogin_netCalls]
    · intro d hd
      subst hd
      rw [ensure_ok now u d s h1 h2]
      unfold saveTokens
      refine ⟨rfl, ?_, ?_, ?_, ?_⟩ <;> try (split <;> rfl)
      intro ht he
      have : d.refresh_token ≠ "" ∧ d.refresh_expires_at ≠ 0 := ⟨ht, he⟩
      simp [this]
    · rintro (hd | ⟨st, hd⟩) <;> subst hd
      · rw [ensure_netErr now u s h1 h2]
        exact ⟨rfl, redirectLogin_redirecting u _⟩
      · rw [ensure_httpErr now u st s h1 h2]
        exact ⟨rfl, redirectLogin_redirecting u _⟩

/-- Concrete state for the C1 witness: no access token, valid refresh
token. -/
def sC1w : St := ⟨none, none, some "R1", some 1000, none, false, [], []⟩

/-- Full refresh response for the C1 witness. -/
def dC1w : RefreshData :=
  { access_token := "A2", access_expires_at := 999,
    refresh_token := "R2", refresh_expires_at := 888 }

/-- C1 witness: a success response carrying both refresh fields is fully
persisted and its access token returned. -/
theorem ensureAccessToken_spec_w :
    (ensureAccessToken 100 "u" (FetchResult.ok dC1w) sC1w).1
      = dC1w.access_token ∧
    ((ensureAccessToken 100 "u" (FetchResult.ok dC1w) sC1w).2).access
      = some dC1w.access_token ∧
    ((ensureAccessToken 100 "u" (FetchResult.ok dC1w) sC1w).2).refresh
      = some dC1w.refresh_token ∧
    ((ensureAccessToken 100 "u" (FetchResult.ok dC1w) sC1w).2).refreshExp
      = some dC1w.refresh_expires_at := by
  have h := ((ensureAccessToken_spec 100 "u" (FetchResult.ok dC1w) sC1w).2.2
    (by decide) (by decide)).2.1 dC1w rfl
  exact ⟨h.1, h.2.1, (h.2.2.2.2 (by decide) (by decide)).1,
    (h.2.2.2.2 (by decide) (by decide)).2⟩

/-- Concrete state for the C2 counterexample: expired access token, no
refresh token, cached profile. -/
def sC2cex : St :=
  ⟨some "OLD", some 50, none, none, some "ME", false, [], []⟩

/-- C2 counterexample: after the irrecoverable failure (no refresh token
cached) the access token and the cached profile are still present, not
erased as they would be by clearTokens, contradicting the claim. -/
theorem authFailure_keepsState_cex :
    ((ensureAccessToken 100 "u" FetchResult.netErr sC2cex).2).access
      = some "OLD" ∧
    ((ensureAccessToken 100 "u" FetchResult.netErr sC2cex).2).me
      = some "ME" ∧
    (clearTokens sC2cex).access = none ∧
    (some "OLD" : Option String) ≠ none := by decide

/-- C2 amended: on every irrecoverable auth failure (missing or expired
refresh token, refresh call rejected by the server or failing on the
network, profile fetch rejected) the cached session state is left in
place, NOT erased; the failure only triggers the login redirect. Full
erasure of the five keys happens on logout alone. -/
theorem authFailure_keepsState (now : Nat) (u tok : String)
    (resp : FetchResult RefreshData) (r2 : FetchResult Unit)
    (cacheOk : Bool) (s : St) :
    (hasValidAT now s = false → hasValidRT now s = false →
      ((ensureAccessToken now u resp s).2).access = s.access ∧
      ((ensureAccessToken now u resp s).2).accessExp = s.accessExp ∧
      ((ensureAccessToken now u resp s).2).refresh = s.refresh ∧
      ((ensureAccessToken now u resp s).2).refreshExp = s.refreshExp ∧
      ((ensureAccessToken now u resp s).2).me = s.me ∧
      ((ensureAccessToken now u resp s).2).redirecting = true) ∧
    (hasValidAT now s = false → hasValidRT now s = true →
      (resp = FetchResult.netErr ∨ ∃ st, resp = FetchResult.httpErr st) →
      ((ensureAccessToken now u resp s).2).access = s.access ∧
      ((ensureAccessToken now u resp s).2).accessExp = s.accessExp ∧
      ((ensureAccessToken now u resp s).2).refresh = s.refresh ∧
      ((ensureAccessToken now u resp s).2).refreshExp = s.refreshExp ∧
      ((ensureAccessToken now u resp s).2).me = s.me ∧
      ((ensureAccessToken now u resp s).2).redirecting = true) ∧
    (∀ st, ((fetchMe u tok (FetchResult.httpErr st) cacheOk s).2).access = s.access ∧
      ((fetchMe u tok (FetchResult.httpErr st) cacheOk s).2).refresh = s.refresh ∧
      ((fetchMe u tok (FetchResult.httpErr st) cacheOk s).2).me = s.me ∧
      ((fetchMe u tok (FetchResult.httpErr st) cacheOk s).2).redirecting = true) ∧
    ((onLogout u r2 s).access = none ∧
      (onLogout u r2 s).accessExp = none ∧
      (onLogout u r2 s).refresh = none ∧
      (onLogout u r2 s).refreshExp = none ∧
      (onLogout u r2 s).me = none) := by
  refine ⟨fun h1 h2 => ?_, fun h1 h2 hr => ?_, fun st => ?_, ?_⟩
  · rw [ensure_noRT now u resp s h1 h2]
    exact ⟨redirectLogin_access u s, redirectLogin_accessExp u s,
      redirectLogin_refresh u s, redirectLogin_refreshExp u s,
      redirectLogin_me u s, redirectLogin_redirecting u s⟩
  · rcases hr with hd | ⟨st, hd⟩ <;> subst hd
    · rw [ensure_netErr now u s h1 h2]
      exact ⟨redirectLogin_access u _, redirectLogin_accessExp u _,
        redirectLogin_refresh u _, redirectLogin_refreshExp u _,
        redirectLogin_me u _, redirectLogin_redirecting u _⟩
    · rw [ensure_httpErr now u st s h1 h2]
      exact ⟨redirectLogin_access u _, redirectLogin_accessExp u _,
        redirectLogin_refresh u _, redirectLogin_refreshExp u _,
        redirectLogin_me u _, redirectLogin_redirecting u _⟩
  · unfold fetchMe
    exact ⟨redirectLogin_access u _, redirectLogin_refresh u _,
      redirectLogin_me u _, redirectLogin_redirecting u _⟩
  · unfold onLogout clearTokens
    exact ⟨redirectLogin_access u _, redirectLogin_accessExp u _,
      redirectLogin_refresh u _, redirectLogin_refreshExp u _,
      redirectLogin_me u _⟩

/-- C2 witness: the counterexample state, instantiated in the amended
theorem: the failure path keeps every field and sets the redirect flag,
while logout erases all five keys. -/
theorem authFailure_keepsState_w :
    (((ensureAccessToken 100 "u" FetchResult.netErr sC2cex).2).access
        = sC2cex.access ∧
      ((ensureAccessToken 100 "u" FetchResult.netErr sC2cex).2).accessExp
        = sC2cex.accessExp ∧
      ((ensureAccessToken 100 "u" FetchResult.netErr sC2cex).2).refresh
        = sC2cex.refresh ∧
      ((ensureAccessToken 100 "u" FetchResult.netErr sC2cex).2).refreshExp
        = sC2cex.refreshExp ∧
      ((ensureAccessToken 100 "u" FetchResult.netErr sC2cex).2).me
        = sC2cex.me ∧
      ((ensureAccessToken 100 "u" FetchResult.netErr sC2cex).2).redirecting
        = true) ∧
    (onLogout "u" FetchResult.netErr sC2cex).me = none := by
  have h := authFailure_keepsState 100 "u" "t" FetchResult.netErr
    FetchResult.netErr true sC2cex
  exact ⟨h.1 (by decide) (by decide), h.2.2.2.2.2.2.2⟩

/-- Concrete state for the C5 witness: no access token, refresh token R1
with a far-off expiry, as in the spec scenario. -/
def sC5w : St := ⟨none, none, some "R1", some 5000, none, false, [], []⟩

/-- Refresh response for the C5 witness: access leg only. -/
def dC5w : RefreshData :=
  { access_token := "T2", access_expires_at := 3700,
    refresh_token := "", refresh_expires_at := 0 }

/-- C5: a successful refresh response lacking a new refresh token or its
expiry overwrites only the access leg; the cached refresh token, its
expiry and the cached profile are left unchanged, and the returned value
is the access_token field of the response. -/
theorem refresh_preserves_refresh_leg (now : Nat) (u : String) (s : St)
    (d : RefreshData) (h1 : hasValidAT now s = false)
    (h2 : hasValidRT now s = true)
    (h3 : d.refresh_token = "" ∨ d.refresh_expires_at = 0) :
    (ensureAccessToken now u (FetchResult.ok d) s).1 = d.access_token ∧
    ((ensureAccessToken now u (FetchResult.ok d) s).2).access
      = some d.access_token ∧
    ((ensureAccessToken now u (FetchResult.ok d) s).2).accessExp
      = some d.access_expires_at ∧
    ((ensureAccessToken now u (FetchResult.ok d) s).2).refresh = s.refresh ∧
    ((ensureAccessToken now u (FetchResult.ok d) s).2).refreshExp
      = s.refreshExp ∧
    ((ensureAccessToken now u (FetchResult.ok d) s).2).me = s.me := by
  rw [ensure_ok now u d s h1 h2]
  have hc : ¬ (d.refresh_token ≠ "" ∧ d.refresh_expires_at ≠ 0) := by
    rcases h3 with h | h <;> simp [h]
  unfold saveTokens
  simp [hc]

/-- C5 witness: the spec scenario: refresh returns T2 with no refresh
fields; the cached refresh token stays R1 and T2 is returned. -/
theorem refresh_preserves_refresh_leg_w :
    hasValidAT 100 sC5w = false ∧ hasValidRT 100 sC5w = true ∧
    ((ensureAccessToken 100 "u" (FetchResult.ok dC5w) sC5w).1 = "T2" ∧
     ((ensureAccessToken 100 "u" (FetchResult.ok dC5w) sC5w).2).refresh
       = some "R1" ∧
     ((ensureAccessToken 100 "u" (FetchResult.ok dC5w) sC5w).2).refreshExp
       = some 5000) := by
  refine ⟨by decide, by decide, ?_⟩
  have h := refresh_preserves_refresh_leg 100 "u" sC5w dC5w
    (by decide) (by decide) (Or.inl rfl)
  exact ⟨h.1, h.2.2.2.1, h.2.2.2.2.1⟩

lemma applyN_of_redirecting (u : String) (n : Nat) (s : St)
    (h : s.redirecting = true) : applyN u n s = s := by
  induction n with
  | zero => rfl
  | succ m ih =>
      show applyN u m (redirectLogin u s) = s
      rw [redirectLogin_of_redirecting u s h]
      exact ih

lemma applyN_succ_eq (u : String) (n : Nat) (s : St) :
    applyN u (n + 1) s = redirectLogin u s := by
  show applyN u n (redirectLogin u s) = redirectLogin u s
  exact applyN_of_redirecting u n _ (redirectLogin_redirecting u s)

lemma navPot_redirectLogin (u : String) (s : St) :
    navPot (redirectLogin u s) ≤ navPot s := by
  unfold navPot redirectLogin
  split <;> simp_all

lemma navPot_ensure (now : Nat) (u : String) (resp : FetchResult RefreshData)
    (s : St) : navPot ((ensureAccessToken now u resp s).2) ≤ navPot s := by
  unfold ensureAccessToken
  split
  · exact Nat.le_refl _
  · split
    · cases resp with
      | ok d =>
          show navPot (saveTokens d _) ≤ navPot s
          unfold navPot saveTokens
          split <;> simp
      | httpErr st => exact navPot_redirectLogin u _
      | netErr => exact navPot_redirectLogin u _
    · exact navPot_redirectLogin u s

lemma navs_le_navPot (s : St) : s.navs.length ≤ navPot s := by
  unfold navPot
  split <;> omega

lemma navPot_le_succ (s : St) : navPot s ≤ s.navs.length + 1 := by
  unfold navPot
  split <;> omega

/-- C6: redirectLogin is idempotent within one page instance: a call with
the one-shot flag already set is a no-op, any number of repeated calls
appends at most one navigation (none when the flag was already set), every
navigation it adds goes to the login URL with the originating page in the
from query parameter, and two ensureAccessToken calls whose refresh
endpoint answers 401 in the same tick still produce at most one
navigation in total. -/
theorem redirectLogin_once_spec (u : String) (s : St) (n now : Nat) :
    (s.redirecting = true → redirectLogin u s = s) ∧
    (applyN u n s).navs.length ≤ s.navs.length + 1 ∧
    (s.redirecting = true → (applyN u n s).navs = s.navs) ∧
    (∀ e, e ∈ (applyN u n s).navs →
      e ∈ s.navs ∨ (e.base = u ∧ e.fromParam = "home")) ∧
    ((ensureAccessToken now u (FetchResult.httpErr 401)
        ((ensureAccessToken now u (FetchResult.httpErr 401) s).2)).2).navs.length
      ≤ s.navs.length + 1 := by
  refine ⟨redirectLogin_of_redirecting u s, ?_, ?_, ?_, ?_⟩
  · cases n with
    | zero => simp [applyN]
    | succ m =>
        rw [applyN_succ_eq]
        calc (redirectLogin u s).navs.length
            ≤ navPot (redirectLogin u s) := navs_le_navPot _
          _ ≤ navPot s := navPot_redirectLogin u s
          _ ≤ s.navs.length + 1 := navPot_le_succ s
  · intro h
    rw [applyN_of_redirecting u n s h]
  · intro e he
    cases n with
    | zero => exact Or.inl he
    | succ m =>
        rw [applyN_succ_eq] at he
        rw [redirectLogin_navs] at he
        by_cases h : s.redirecting = true
        · rw [if_pos h] at he
          exact Or.inl he
        · rw [if_neg h] at he
          rcases List.mem_append.mp he with h1 | h1
          · exact Or.inl h1
          · rcases List.mem_singleton.mp h1 with rfl
            exact Or.inr ⟨rfl, rfl⟩
  · calc ((ensureAccessToken now u (FetchResult.httpErr 401)
          ((ensureAccessToken now u (FetchResult.httpErr 401) s).2)).2).navs.length
        ≤ navPot ((ensureAccessToken now u (FetchResult.httpErr 401)
          ((ensureAccessToken now u (FetchResult.httpErr 401) s).2)).2) :=
          navs_le_navPot _
      _ ≤ navPot ((ensureAccessToken now u (FetchResult.httpErr 401) s).2) :=
          navPot_ensure now u _ _
      _ ≤ navPot s := navPot_ensure now u _ s
      _ ≤ s.navs.length + 1 := navPot_le_succ s

/-- Concrete state for the C6 witness: the flag is already set and one
navigation was already performed. -/
def sC6w : St :=
  ⟨none, none, none, none, none, true, [{ base := "login.html", fromParam := "home" }], []⟩

/-- C6 witness: with the flag set, redirectLogin is a no-op, three
repeated calls add no navigation, and the recorded navigation carries the
from parameter. -/
theorem redirectLogin_once_spec_w :
    redirectLogin "login.html" sC6w = sC6w ∧
    (applyN "login.html" 3 sC6w).navs = sC6w.navs ∧
    ((NavEvent.mk "login.html" "home") ∈ sC6w.navs ∨
      ((NavEvent.mk "login.html" "home").base = "login.html" ∧
       (NavEvent.mk "login.html" "home").fromParam = "home")) := by
  have h := redirectLogin_once_spec "login.html" sC6w 3 100
  exact ⟨h.1 (by decide), h.2.2.1 (by decide),
    h.2.2.2.1 (NavEvent.mk "login.html" "home") (by decide)⟩

/-- C8: fetchMe always issues exactly one request to the profile endpoint
with the given token as bearer credential; on a non-success status it
returns null, triggers the login redirect, and does not touch the cached
profile; on success it returns the payload and caches it exactly when the
cache write does not fail, with the returned value unaffected by a cache
failure, and performs no redirect. -/
theorem fetchMe_spec (u tok p : String) (st : Nat) (cacheOk : Bool) (s : St) :
    (∀ resp : FetchResult String,
      ((fetchMe u tok resp cacheOk s).2).netCalls
        = s.netCalls ++ [NetCall.meReq tok]) ∧
    ((fetchMe u tok (FetchResult.httpErr st) cacheOk s).1
        = MeResult.value none ∧
      ((fetchMe u tok (FetchResult.httpErr st) cacheOk s).2).redirecting
        = true ∧
      ((fetchMe u tok (FetchResult.httpErr st) cacheOk s).2).me = s.me) ∧
    ((fetchMe u tok (FetchResult.ok p) cacheOk s).1
        = MeResult.value (some p) ∧
      ((fetchMe u tok (FetchResult.ok p) cacheOk s).2).me
        = (if cacheOk = true then some p else s.me) ∧
      ((fetchMe u tok (FetchResult.ok p) cacheOk s).2).redirecting
        = s.redirecting ∧
      ((fetchMe u tok (FetchResult.ok p) cacheOk s).2).navs = s.navs) := by
  refine ⟨fun resp => ?_, ⟨rfl, ?_, ?_⟩, ⟨rfl, ?_, ?_, ?_⟩⟩
  · cases resp with
    | ok q =>
        show (if cacheOk then _ else _ : St).netCalls = _
        split <;> rfl
    | httpErr st2 =>
        show (redirectLogin u _).netCalls = _
        rw [redirectLogin_netCalls]
    | netErr => rfl
  · exact redirectLogin_redirecting u _
  · exact redirectLogin_me u _
  · show (if cacheOk then _ else _ : St).me = _
    split <;> simp_all
  · show (if cacheOk then _ else _ : St).redirecting = _
    split <;> rfl
  · show (if cacheOk then _ else _ : St).navs = _
    split <;> rfl

lemma replaceAllC_append (pat : Char) (rep a b : List Char) :
    replaceAllC pat rep (a ++ b)
      = replaceAllC pat rep a ++ replaceAllC pat rep b := by
  induction a with
  | nil => rfl
  | cons c cs ih => simp [replaceAllC, ih]

lemma escBlock (c : Char) :
    replaceAllC apos "&#039;".data (replaceAllC dq "&quot;".data
      (replaceAllC '>' "&gt;".data (replaceAllC '<' "&lt;".data
        (if c = '&' then "&amp;".data else [c])))) = escChar c := by
  by_cases h1 : c = '&'
  · subst h1; decide
  · rw [if_neg h1]
    by_cases h2 : c = '<'
    · subst h2; decide
    · by_cases h3 : c = '>'
      · subst h3; decide
      · by_cases h4 : c = dq
        · subst h4; decide
        · by_cases h5 : c = apos
          · subst h5; decide
          · simp [replaceAllC, escChar, h1, h2, h3, h4, h5]

lemma escapeHtml_cons (c : Char) (cs : List Char) :
    escapeHtml (c :: cs) = escChar c ++ escapeHtml cs := by
  have h1 : replaceAllC '&' "&amp;".data (c :: cs)
      = (if c = '&' then "&amp;".data else [c])
          ++ replaceAllC '&' "&amp;".data cs := rfl
  unfold escapeHtml
  rw [h1, replaceAllC_append, replaceAllC_append, replaceAllC_append,
    replaceAllC_append, escBlock]

lemma escapeHtml_eq_flatten (s : List Char) :
    escapeHtml s = (s.map escChar).flatten := by
  induction s with
  | nil => rfl
  | cons c cs ih => simp [escapeHtml_cons, ih]

lemma escOk_cons_plain (c : Char) (l : List Char)
    (h1 : ¬ (c = '<' ∨ c = '>' ∨ c = dq ∨ c = apos)) (h2 : ¬ c = '&') :
    escOk (c :: l) = escOk l := by
  rw [escOk, if_neg h1, if_neg h2]

lemma escOk_escChar (c : Char) (l : List Char) (h : escOk l = true) :
    escOk (escChar c ++ l) = true := by
  by_cases h1 : c = '&'
  · subst h1
    show escOk ('&' :: 'a' :: 'm' :: 'p' :: ';' :: l) = true
    rw [escOk, if_neg (by decide), if_pos rfl]
    rw [Bool.and_eq_true]
    constructor
    · show entityAt ('&' :: 'a' :: 'm' :: 'p' :: ';' :: l) = true
      simp [entityAt, List.isPrefixOf]
    · rw [escOk_cons_plain _ _ (by decide) (by decide),
        escOk_cons_plain _ _ (by decide) (by decide),
        escOk_cons_plain _ _ (by decide) (by decide),
        escOk_cons_plain _ _ (by decide) (by decide)]
      exact h
  · by_cases h2 : c = '<'
    · subst h2
      show escOk ('&' :: 'l' :: 't' :: ';' :: l) = true
      rw [escOk, if_neg (by decide), if_pos rfl, Bool.and_eq_true]
      constructor
      · simp [entityAt, List.isPrefixOf]
      · rw [escOk_cons_plain _ _ (by decide) (by decide),
          escOk_cons_plain _ _ (by decide) (by decide),
          escOk_cons_plain _ _ (by decide) (by decide)]
        exact h
    · by_cases h3 : c = '>'
      · subst h3
        show escOk ('&' :: 'g' :: 't' :: ';' :: l) = true
        rw [escOk, if_neg (by decide), if_pos rfl, Bool.and_eq_true]
        constructor
        · simp [entityAt, List.isPrefixOf]
        · rw [escOk_cons_plain _ _ (by decide) (by decide),
            escOk_cons_plain _ _ (by decide) (by decide),
            escOk_cons_plain _ _ (by decide) (by decide)]
          exact h
      · by_cases h4 : c = dq
        · subst h4
          show escOk ('&' :: 'q' :: 'u' :: 'o' :: 't' :: ';' :: l) = true
          rw [escOk, if_neg (by decide), if_pos rfl, Bool.and_eq_true]
          constructor
          · simp [entityAt, List.isPrefixOf]
          · rw [escOk_cons_plain _ _ (by decide) (by decide),
              escOk_cons_plain _ _ (by decide) (by decide),
              escOk_cons_plain _ _ (by decide) (by decide),
              escOk_cons_plain _ _ (by decide) (by decide),
              escOk_cons_plain _ _ (by decide) (by decide)]
            exact h
        · by_cases h5 : c = apos
          · subst h5
            show escOk ('&' :: '#' :: '0' :: '3' :: '9' :: ';' :: l) = true
            rw [escOk, if_neg (by decide), if_pos rfl, Bool.and_eq_true]
            constructor
            · simp [entityAt, List.isPrefixOf]
            · rw [escOk_cons_plain _ _ (by decide) (by decide),
                escOk_cons_plain _ _ (by decide) (by decide),
                escOk_cons_plain _ _ (by decide) (by decide),
                escOk_cons_plain _ _ (by decide) (by decide),
                escOk_cons_plain _ _ (by decide) (by decide)]
              exact h
          · have he : escChar c = [c] := by
              simp [escChar, h1, h2, h3, h4, h5]
            rw [he]
            show escOk (c :: l) = true
            rw [escOk_cons_plain c l (by tauto) h1]
            exact h

lemma escOk_flatten (s : List Char) :
    escOk ((s.map escChar).flatten) = true := by
  induction s with
  | nil => rfl
  | cons c cs ih =>
      show escOk (escChar c ++ (cs.map escChar).flatten) = true
      exact escOk_escChar c _ ih

/-- C9: for every input string, escapeHtml produces a string in which no
angle bracket and no quote character occurs and every ampersand is the
first character of one of the five entities; equivalently, it is the
per-character substitution escChar applied across the input (ampersand
replaced first, so later passes never touch the ampersands that earlier
passes introduced). -/
theorem escapeHtml_spec (s : List Char) :
    escOk (escapeHtml s) = true ∧ escapeHtml s = (s.map escChar).flatten := by
  refine ⟨?_, escapeHtml_eq_flatten s⟩
  rw [escapeHtml_eq_flatten s]
  exact escOk_flatten s

lemma fetchAllSongsAux_spec (resp : Nat → PageResult) :
    ∀ (n p fuel : Nat) (acc : List Nat), n < fuel →
      (∀ k, p ≤ k → k < p + n →
        ∃ rs, resp k = PageResult.rows rs ∧ PAGE_SIZE ≤ rs.length) →
      isStop (resp (p + n)) →
      fetchAllSongsAux resp fuel p acc =
        stopResult (acc ++ ((List.range' p n).map (pageRows resp)).flatten)
          (resp (p + n)) := by
  intro n
  induction n with
  | zero =>
      intro p fuel acc hfuel _ hstop
      cases fuel with
      | zero => omega
      | succ f =>
          rw [Nat.add_zero] at hstop ⊢
          unfold fetchAllSongsAux
          cases hr : resp p with
          | httpError st => simp [hr, stopResult]
          | nonArray => simp [hr, stopResult]
          | rows rs =>
              rw [hr] at hstop
              have hlen : rs.length < PAGE_SIZE := hstop
              by_cases hrs : rs = []
              · subst hrs; simp [hr, stopResult]
              · simp [hr, stopResult, hrs, hlen]
  | succ m ih =>
      intro p fuel acc hfuel hfull hstop
      cases fuel with
      | zero => omega
      | succ f =>
          obtain ⟨rs, hr, hlen⟩ := hfull p (Nat.le_refl p) (by omega)
          have hne : rs ≠ [] := by
            intro hcon
            rw [hcon] at hlen
            simp [PAGE_SIZE] at hlen
          have hnl : ¬ rs.length < PAGE_SIZE := by omega
          have hstep : fetchAllSongsAux resp (f + 1) p acc
              = fetchAllSongsAux resp f (p + 1) (acc ++ rs) := by
            simp [fetchAllSongsAux, hr, hne, hnl]
          rw [hstep]
          have heq : p + 1 + m = p + (m + 1) := by omega
          have hfull2 : ∀ k, p + 1 ≤ k → k < p + 1 + m →
              ∃ rs2, resp k = PageResult.rows rs2 ∧ PAGE_SIZE ≤ rs2.length := by
            intro k hk1 hk2
            exact hfull k (by omega) (by omega)
          have hstop2 : isStop (resp (p + 1 + m)) := by rw [heq]; exact hstop
          rw [ih (p + 1) f (acc ++ rs) (by omega) hfull2 hstop2]
          rw [List.range'_succ]
          simp [pageRows, hr, heq]

/-- C10: under the precondition that every page before N answers a full
array of at least PAGE_SIZE rows and page N is the first page at which
the loop stops, fetchAllSongs terminates (any fuel of at least N pages
suffices) and returns the concatenation of the row arrays of pages
1, 2, ..., in increasing page order, including the first page whose
array has fewer than PAGE_SIZE rows; a non-array page contributes
nothing, and a page answering a non-success HTTP status raises an error
carrying that status. -/
theorem fetchAllSongs_spec (resp : Nat → PageResult) (N fuel : Nat)
    (hN : 1 ≤ N) (hfuel : N ≤ fuel)
    (hfull : ∀ k, 1 ≤ k → k < N →
      ∃ rs, resp k = PageResult.rows rs ∧ PAGE_SIZE ≤ rs.length) :
    (∀ st, resp N = PageResult.httpError st →
      fetchAllSongs resp fuel = some (Except.error st)) ∧
    (resp N = PageResult.nonArray →
      fetchAllSongs resp fuel
        = some (Except.ok
            (((List.range' 1 (N - 1)).map (pageRows resp)).flatten))) ∧
    (∀ rs, resp N = PageResult.rows rs → rs.length < PAGE_SIZE →
      fetchAllSongs resp fuel
        = some (Except.ok
            (((List.range' 1 (N - 1)).map (pageRows resp)).flatten ++ rs))) := by
  have hNe : 1 + (N - 1) = N := by omega
  have hfull2 : ∀ k, 1 ≤ k → k < 1 + (N - 1) →
      ∃ rs, resp k = PageResult.rows rs ∧ PAGE_SIZE ≤ rs.length := by
    intro k h1 h2
    exact hfull k h1 (by omega)
  refine ⟨fun st h => ?_, fun h => ?_, fun rs h hlen => ?_⟩
  · have key := fetchAllSongsAux_spec resp (N - 1) 1 fuel [] (by omega) hfull2
      (by rw [hNe, h]; trivial)
    rw [hNe, h] at key
    simpa [fetchAllSongs, stopResult] using key
  · have key := fetchAllSongsAux_spec resp (N - 1) 1 fuel [] (by omega) hfull2
      (by rw [hNe, h]; trivial)
    rw [hNe, h] at key
    simpa [fetchAllSongs, stopResult] using key
  · have key := fetchAllSongsAux_spec resp (N - 1) 1 fuel [] (by omega) hfull2
      (by rw [hNe, h]; exact hlen)
    rw [hNe, h] at key
    simpa [fetchAllSongs, stopResult] using key

/-- Concrete backend for the C10 witness: page 1 answers 200 rows, page 2
answers a single row. -/
def respC10w : Nat → PageResult := fun k =>
  if k = 1 then PageResult.rows (List.range 200) else PageResult.rows [7]

/-- C10 witness: the loop stops at page 2 and returns the rows of page 1
followed by the short page 2. -/
theorem fetchAllSongs_spec_w :
    fetchAllSongs respC10w 5 = some (Except.ok (List.range 200 ++ [7])) := by
  have hfull : ∀ k, 1 ≤ k → k < 2 →
      ∃ rs, respC10w k = PageResult.rows rs ∧ PAGE_SIZE ≤ rs.length := by
    intro k h1 h2
    have hk : k = 1 := by omega
    subst hk
    exact ⟨List.range 200, rfl, by simp [PAGE_SIZE]⟩
  have h := (fetchAllSongs_spec respC10w 2 5 (by omega) (by omega) hfull).2.2
    [7] rfl (by decide)
  simpa [pageRows, respC10w] using h

end HeroApp
